import Mathlib

/-!
Verification development for the Phone-Controller repository.

This file shallowly embeds the parts of `pc_agent_relay.py` and `pc_agent.py`
that the specification talks about: the pattern-matching translator
(`PatternMatcher.parse_command`), the probabilistic translator
(`AINLPProcessor.process_command` / `_parse_ai_response`), the command
handlers (`handle_open_app`, `handle_mouse_click`, ..., `handle_ai_command`),
the relay message dispatch (`handle_relay_message`), the pc-agent command
executor (`handle_command`) and the two reconnect loops.

Python values flowing through JSON payloads are modelled by `PyVal`; dicts
are association lists in insertion order.  External effects (the OpenAI
call, `json.loads` results on service responses, `pyautogui` calls,
`subprocess` launches) are passed in as oracle parameters, since they are
outside the program text; everything the repository itself computes is
translated directly from the source.
-/

/-- Model of a Python/JSON value as it appears in the agent's payloads. -/
inductive PyVal where
  | pnull
  | pbool (b : Bool)
  | pnum (q : ℚ)
  | pstr (s : String)
  | plist (xs : List PyVal)
  | pdict (xs : List (String × PyVal))

/-- A Python dict with string keys, in insertion order (keys unique). -/
abbrev PyDict := List (String × PyVal)

/-- Python `d.get(k)`: `None` when the key is missing. -/
def pyGet (d : PyDict) (k : String) : PyVal := (d.lookup k).getD PyVal.pnull

/-- Python `d.get(k, default)`: the default only applies when the key is
missing; a stored `None` is returned as is. -/
def pyGetD (d : PyDict) (k : String) (v : PyVal) : PyVal := (d.lookup k).getD v

/-- Python `d[k] = v`: replace in place if the key exists, else append. -/
def pySet (d : PyDict) (k : String) (v : PyVal) : PyDict :=
  if (d.lookup k).isSome then d.map (fun p => if p.1 = k then (k, v) else p)
  else d ++ [(k, v)]

/-- Python `v == "s"` for a string literal: only equal strings compare equal. -/
def pyEqStr (v : PyVal) (s : String) : Bool :=
  match v with
  | PyVal.pstr t => t = s
  | _ => false

/-- Python membership test `app in approved_apps.values()` as
`handle_open_app` performs it: only an equal string is a member. -/
def pyInValues (v : PyVal) (vals : List String) : Bool :=
  match v with
  | PyVal.pstr s => decide (s ∈ vals)
  | _ => false

/-- Python `v is not None`. -/
def isNotNull : PyVal → Bool
  | PyVal.pnull => false
  | _ => true

/-- Python truth-value testing (`if not v`): falsy values. -/
def pyFalsy : PyVal → Bool
  | PyVal.pnull => true
  | PyVal.pbool b => !b
  | PyVal.pnum q => decide (q = 0)
  | PyVal.pstr s => s = ""
  | PyVal.plist xs => xs.isEmpty
  | PyVal.pdict xs => xs.isEmpty

/-- Python truthiness. -/
def pyTruthy (v : PyVal) : Bool := !pyFalsy v

/-- Numeric view of a value for arithmetic/comparisons (Python bools are
ints).  `none` models a `TypeError` when Python would refuse the operand. -/
def toNumQ : PyVal → Option ℚ
  | PyVal.pnum q => some q
  | PyVal.pbool b => some (if b then 1 else 0)
  | _ => none

/-- Python `float(v)` for the payload values the agent converts.  Numeric
strings (which Python would also accept) are not needed by any claim and
are conservatively mapped to `none` (the exception path). -/
def pyFloat : PyVal → Option ℚ
  | PyVal.pnum q => some q
  | PyVal.pbool b => some (if b then 1 else 0)
  | _ => none

/-- The name of a value's Python type, as it appears in error messages.
Numbers are rendered as `int` (the model does not separate floats). -/
def pyTypeName : PyVal → String
  | PyVal.pnull => "NoneType"
  | PyVal.pbool _ => "bool"
  | PyVal.pnum _ => "int"
  | PyVal.pstr _ => "str"
  | PyVal.plist _ => "list"
  | PyVal.pdict _ => "dict"

/-- Best-effort rendering of a value inside an f-string (only strings,
ints, bools and None are interpolated by the source on any claim path). -/
def pyShow : PyVal → String
  | PyVal.pnull => "None"
  | PyVal.pbool b => if b then "True" else "False"
  | PyVal.pnum q => if q.den = 1 then toString q.num else toString q
  | PyVal.pstr s => s
  | PyVal.plist _ => "[...]"
  | PyVal.pdict _ => "..."

/-- Message of the `AttributeError` raised by `x.attr` on a value lacking
the attribute. -/
def attrErrMsg (v : PyVal) (attr : String) : String :=
  "'" ++ pyTypeName v ++ "' object has no attribute '" ++ attr ++ "'"

/-- Whether the first char list is a prefix of the second. -/
def leadsWith : List Char → List Char → Bool
  | [], _ => true
  | _ :: _, [] => false
  | a :: as, b :: bs => a == b && leadsWith as bs

/-- Whether the first char list occurs contiguously inside the second. -/
def subOf (needle : List Char) : List Char → Bool
  | [] => needle.isEmpty
  | c :: rest => leadsWith needle (c :: rest) || subOf needle rest

/-- Python `needle in hay` on strings. -/
def strIn (needle hay : String) : Bool := subOf needle.toList hay.toList

/-- Python `s.startswith(pre)`. -/
def pyStartsWith (s pre : String) : Bool := leadsWith pre.toList s.toList

/-- Characters treated as whitespace by Python `str.strip` / regex `\s`
(ASCII range; the repository only handles ASCII command text). -/
def pyIsSpace (c : Char) : Bool :=
  c == ' ' || c == '\t' || c == '\n' || c == '\r' || c == '\x0b' || c == '\x0c'

/-- Python `s.strip()`. -/
def pyStrip (s : String) : String :=
  String.mk (((s.toList.dropWhile pyIsSpace).reverse.dropWhile pyIsSpace).reverse)

/-- Python `s.lower()` (ASCII case mapping; the approved tables and all
pattern keywords are ASCII). -/
def pyLower (s : String) : String := String.mk (s.toList.map Char.toLower)

/-- Value of a digit group, as `int(...)` reads it. -/
def natOfDigits (ds : List Char) : Nat := ds.foldl (fun n c => 10 * n + (c.toNat - 48)) 0

/-- One attempt of the regex `(\d+)[, ]\s*(\d+)` anchored at the start of
`cs`.  The pattern is backtrack-free here: `\d+` is maximal (the next char
cannot be a digit), `[, ]` is a single char, `\s*` is maximal (a digit is
not whitespace). -/
def coordMatchAt (cs : List Char) : Option (Nat × Nat) :=
  let d1 := cs.takeWhile Char.isDigit
  if d1.isEmpty then none
  else
    match cs.drop d1.length with
    | [] => none
    | c :: rest =>
      if c == ',' || c == ' ' then
        let rest2 := rest.dropWhile pyIsSpace
        let d2 := rest2.takeWhile Char.isDigit
        if d2.isEmpty then none else some (natOfDigits d1, natOfDigits d2)
      else none

/-- Leftmost-start search, as `re.search` performs it. -/
def coordSearchAux : List Char → Option (Nat × Nat)
  | [] => none
  | c :: rest =>
    match coordMatchAt (c :: rest) with
    | some r => some r
    | none => coordSearchAux rest

/-- Embeds `re.search(r'(\d+)[, ]\s*(\d+)', text)` returning the two
integer groups. -/
def coordSearch (s : String) : Option (Nat × Nat) := coordSearchAux s.toList

/-- The `approved_apps` table of `PatternMatcher.__init__`, in source
order. -/
def approvedAppsList : List (String × String) :=
  [("chrome", "chrome"), ("browser", "chrome"), ("google chrome", "chrome"),
   ("notepad", "notepad"), ("calculator", "calc"), ("paint", "mspaint"),
   ("file explorer", "explorer"), ("explorer", "explorer"), ("files", "explorer"),
   ("word", "winword"), ("excel", "excel"), ("powerpoint", "powerpnt"),
   ("vs code", "code"), ("code", "code"), ("command prompt", "cmd"),
   ("terminal", "cmd"), ("task manager", "taskmgr"), ("control panel", "control"),
   ("mail", "outlookmail:")]

/-- The `websites` table of `PatternMatcher.__init__`, in source order. -/
def websitesList : List (String × String) :=
  [("youtube", "youtube.com"), ("google", "google.com"), ("github", "github.com"),
   ("facebook", "facebook.com"), ("twitter", "twitter.com"), ("reddit", "reddit.com"),
   ("gmail", "gmail.com"), ("outlook", "outlook.com"), ("amazon", "amazon.com"),
   ("render", "render.com")]

/-- Python `approved_apps.values()` as a list (duplicates kept). -/
def approvedAppValues : List String := approvedAppsList.map Prod.snd

/-- The `open_app` command dict built in `parse_command`. -/
def openAppCmd (target t : String) : PyDict :=
  [("intent", PyVal.pstr "open_app"), ("target", PyVal.pstr target),
   ("original_text", PyVal.pstr t), ("ai_processed", PyVal.pbool false),
   ("confidence", PyVal.pnum 0.7)]

/-- The `navigate_url` command dict built in `parse_command`. -/
def navigateUrlCmd (target t : String) : PyDict :=
  [("intent", PyVal.pstr "navigate_url"), ("target", PyVal.pstr target),
   ("original_text", PyVal.pstr t), ("ai_processed", PyVal.pbool false),
   ("confidence", PyVal.pnum 0.7)]

/-- The `mouse_click` command dict built in `parse_command`. -/
def mouseClickCmd (x y : Nat) (button t : String) : PyDict :=
  [("intent", PyVal.pstr "mouse_click"), ("x", PyVal.pnum x), ("y", PyVal.pnum y),
   ("button", PyVal.pstr button), ("original_text", PyVal.pstr t),
   ("ai_processed", PyVal.pbool false), ("confidence", PyVal.pnum 0.8)]

/-- The `mouse_move` command dict built in `parse_command`. -/
def mouseMoveCmd (x y : Nat) (t : String) : PyDict :=
  [("intent", PyVal.pstr "mouse_move"), ("x", PyVal.pnum x), ("y", PyVal.pnum y),
   ("original_text", PyVal.pstr t), ("ai_processed", PyVal.pbool false),
   ("confidence", PyVal.pnum 0.8)]

/-- The default `keyboard_type` fallback dict built in `parse_command`. -/
def typeFallbackCmd (t : String) : PyDict :=
  [("intent", PyVal.pstr "keyboard_type"), ("text", PyVal.pstr t),
   ("original_text", PyVal.pstr t), ("ai_processed", PyVal.pbool false),
   ("confidence", PyVal.pnum 0.3)]

/-- Line `text = text.lower().strip()` of `PatternMatcher.parse_command`:
the whole sanitisation the source performs. -/
def sanitizeText (text : String) : String := pyStrip (pyLower text)

/-- Body of `PatternMatcher.parse_command` after the sanitisation line:
first substring match against the app table, then the website table, then
the coordinate regex, then the default typing fallback. -/
def parse_command_sanitized (t : String) : List PyDict :=
  match approvedAppsList.find? (fun p => strIn p.1 t) with
  | some p => [openAppCmd p.2 t]
  | none =>
    match websitesList.find? (fun p => strIn p.1 t) with
    | some p => [navigateUrlCmd p.2 t]
    | none =>
      match coordSearch t with
      | some xy =>
        if strIn "click" t || strIn "move" t then
          if strIn "click" t then
            [mouseClickCmd xy.1 xy.2 (if strIn "right" t then "right" else "left") t]
          else
            [mouseMoveCmd xy.1 xy.2 t]
        else [typeFallbackCmd t]
      | none => [typeFallbackCmd t]

/-- Embeds `PatternMatcher.parse_command`. -/
def parse_command (text : String) : List PyDict :=
  parse_command_sanitized (sanitizeText text)

/-- One pass of `re.sub(r'```json\n?|\n?```', '', s)`: leftmost,
non-overlapping, first alternative preferred, both alternatives greedy in
their optional newline.  Fuel is the remaining length (each step consumes
at least one char). -/
def stripFencesAux : Nat → List Char → List Char
  | 0, cs => cs
  | fuel + 1, cs =>
    if leadsWith ("```json".toList) cs then
      match cs.drop 7 with
      | '\n' :: rest2 => stripFencesAux fuel rest2
      | rest => stripFencesAux fuel rest
    else if leadsWith ("\n```".toList) cs then stripFencesAux fuel (cs.drop 4)
    else if leadsWith ("```".toList) cs then stripFencesAux fuel (cs.drop 3)
    else
      match cs with
      | [] => []
      | c :: rest => c :: stripFencesAux fuel rest

/-- The cleaned response of `_parse_ai_response`:
`re.sub(r'```json\n?|\n?```', '', ai_response).strip()`. -/
def aiCleanResponse (s : String) : String :=
  pyStrip (String.mk (stripFencesAux s.toList.length s.toList))

/-- The error command `_parse_ai_response` returns when `json.loads`
raises `JSONDecodeError`. -/
def aiErrorCmd (aiResponse : String) : PyDict :=
  [("intent", PyVal.pstr "keyboard_type"),
   ("text", PyVal.pstr ("Error: Could not understand command. AI said: " ++ aiResponse)),
   ("ai_processed", PyVal.pbool false), ("confidence", PyVal.pnum 0.0)]

/-- The metadata loop `cmd['ai_processed'] = True; cmd['confidence'] = 0.95`. -/
def tagAi (d : PyDict) : PyDict :=
  pySet (pySet d "ai_processed" (PyVal.pbool true)) "confidence" (PyVal.pnum 0.95)

/-- Message of the `TypeError` raised by `cmd['ai_processed'] = True` on a
non-dict command item. -/
def tagAiErrMsg : PyVal → String
  | PyVal.plist _ => "list indices must be integers or slices, not str"
  | v => "'" ++ pyTypeName v ++ "' object does not support item assignment"

/-- Tags each parsed command with the AI metadata; `Except.error` models
the `TypeError` that a non-dict item raises (it escapes
`_parse_ai_response`, whose only handler is for `JSONDecodeError`). -/
def tagAiList : List PyVal → Except String (List PyDict)
  | [] => Except.ok []
  | PyVal.pdict d :: rest =>
    match tagAiList rest with
    | Except.ok ds => Except.ok (tagAi d :: ds)
    | Except.error e => Except.error e
  | v :: _ => Except.error (tagAiErrMsg v)

/-- Embeds `AINLPProcessor._parse_ai_response`.  `json.loads` is external
(Python stdlib): `parsed` is its result on the cleaned response, `none`
standing for `JSONDecodeError`.  An `Except.error` result models an
exception escaping to the caller. -/
def parseAiResponse (aiResponse : String) (parsed : Option PyVal) :
    Except String (List PyDict) :=
  match parsed with
  | none => Except.ok [aiErrorCmd aiResponse]
  | some v =>
    let cleaned := aiCleanResponse aiResponse
    if pyStartsWith cleaned "[" then
      match v with
      | PyVal.plist xs => tagAiList xs
      | _ => Except.error "TypeError"
    else tagAiList [v]

/-- Outcome of the external OpenAI call made by
`AINLPProcessor.process_command`: either the request raised (network
failure, auth error, timeout ...) or a response text arrived, paired with
what `json.loads` yields on its cleaned form. -/
inductive AIOutcome where
  | svcError (msg : String)
  | svcResponse (raw : String) (parsed : Option PyVal)

/-- Embeds `AINLPProcessor.process_command`: pattern fallback when
disabled, on any exception from the API call, and on any exception
escaping `_parse_ai_response` (for example the `TypeError` on non-dict
items); otherwise the parsed command list is returned unvalidated. -/
def process_command (enabled : Bool) (text : String) (outcome : AIOutcome) :
    List PyDict :=
  if !enabled then parse_command text
  else
    match outcome with
    | AIOutcome.svcError _ => parse_command text
    | AIOutcome.svcResponse raw parsed =>
      match parseAiResponse raw parsed with
      | Except.ok cmds => cmds
      | Except.error _ => parse_command text

/-- Response envelope of a single relay command handler. -/
structure Envelope where
  ok : Bool
  error : Option String
  message : Option String

/-- Aggregate envelope returned by `handle_ai_command`. -/
structure AggEnvelope where
  ok : Bool
  error : Option String
  results : Option (List Envelope)
  ai_commands : Option (List PyDict)
  command_count : Option Nat

/-- A process-level side effect performed by a handler. -/
inductive SysEffect where
  | spawnShell (cmdline : String)
  | spawnArgv (args : List String)
  | runShell (cmdline : String)

/-- Outcome of one external `pyautogui` call block: success, the failsafe
exception (which the handlers catch), or some other exception (which they
do not). -/
inductive PyEff where
  | success
  | failsafe
  | raised (msg : String)

/-- Whether the external call block completed without an exception. -/
def effOk : PyEff → Bool
  | PyEff.success => true
  | _ => false

/-- An everywhere-successful external world, used to evaluate handlers at
concrete inputs. -/
def allSuccess : Nat → PyEff := fun _ => PyEff.success

/-- Embeds `handle_open_app`: launch only targets found in
`approved_apps.values()`; `launch` tells whether `subprocess.Popen`
succeeded (its failure is caught and reported).  The effect list records
the process spawn; `windows` selects the `os.name == 'nt'` branch. -/
def handle_open_app (payload : PyDict) (windows launch : Bool) :
    Except String (Envelope × List SysEffect) :=
  match pyGet payload "target" with
  | PyVal.pstr a =>
    if a ∈ approvedAppValues then
      if launch then
        Except.ok (⟨true, none, some ("Launched " ++ a)⟩,
          [if windows then SysEffect.spawnShell ("start " ++ a)
           else SysEffect.spawnArgv [a]])
      else Except.ok (⟨false, some ("Failed to launch " ++ a), none⟩, [])
    else Except.ok (⟨false, some "Application not approved", none⟩, [])
  | _ => Except.ok (⟨false, some "Application not approved", none⟩, [])

/-- Embeds `handle_navigate_url`.  The `url.startswith` call sits before
the `try`, so a missing or non-string target raises `AttributeError` to
the caller; `launch` tells whether the browser spawn succeeded. -/
def handle_navigate_url (payload : PyDict) (windows launch : Bool) :
    Except String (Envelope × List SysEffect) :=
  match pyGet payload "target" with
  | PyVal.pstr u =>
    let url := if pyStartsWith u "http://" || pyStartsWith u "https://" then u
               else "https://" ++ u
    if launch then
      Except.ok (⟨true, none, some ("Opened " ++ url)⟩,
        [if windows then SysEffect.spawnShell ("start " ++ url)
         else SysEffect.spawnArgv ["xdg-open", url]])
    else Except.ok (⟨false, some ("Failed to open " ++ url), none⟩, [])
  | v => Except.error (attrErrMsg v "startswith")

/-- Embeds `handle_mouse_click`: the envelope is `{'ok': True}` whether or
not coordinates are present; only `FailSafeException` is caught. -/
def handle_mouse_click (payload : PyDict) (eff : PyEff) : Except String Envelope :=
  let x := pyGet payload "x"
  let y := pyGet payload "y"
  if isNotNull x && isNotNull y then
    match eff with
    | PyEff.success => Except.ok ⟨true, none, none⟩
    | PyEff.failsafe => Except.ok ⟨false, some "Failsafe triggered", none⟩
    | PyEff.raised m => Except.error m
  else
    match eff with
    | PyEff.success => Except.ok ⟨true, none, none⟩
    | PyEff.failsafe => Except.ok ⟨false, some "Failsafe triggered", none⟩
    | PyEff.raised m => Except.error m

/-- Embeds `handle_mouse_move`: missing coordinates are reported inside
the `try` without touching the backend. -/
def handle_mouse_move (payload : PyDict) (eff : PyEff) : Except String Envelope :=
  let x := pyGet payload "x"
  let y := pyGet payload "y"
  if isNotNull x && isNotNull y then
    match eff with
    | PyEff.success => Except.ok ⟨true, none, none⟩
    | PyEff.failsafe => Except.ok ⟨false, some "Failsafe triggered", none⟩
    | PyEff.raised m => Except.error m
  else Except.ok ⟨false, some "Missing coordinates", none⟩

/-- Embeds `handle_mouse_scroll`: `-clicks` is computed before the `try`,
so it raises `TypeError` to the caller on a non-numeric `clicks` when the
direction is `down`. -/
def handle_mouse_scroll (payload : PyDict) (eff : PyEff) : Except String Envelope :=
  let direction := pyGetD payload "direction" (PyVal.pstr "down")
  let clicks := pyGetD payload "clicks" (PyVal.pnum 3)
  if pyEqStr direction "down" && (toNumQ clicks).isNone then
    Except.error ("bad operand type for unary -: '" ++ pyTypeName clicks ++ "'")
  else
    match eff with
    | PyEff.success => Except.ok ⟨true, none, none⟩
    | PyEff.failsafe => Except.ok ⟨false, some "Failsafe triggered", none⟩
    | PyEff.raised m => Except.error m

/-- Embeds `handle_keyboard_type`: an empty (defaulted) text is written as
a no-op and still answered with `{'ok': True}`; `then_press` only changes
which backend calls run inside the same `try`. -/
def handle_keyboard_type (payload : PyDict) (eff : PyEff) : Except String Envelope :=
  let _text := pyGetD payload "text" (PyVal.pstr "")
  let _thenPress := pyGet payload "then_press"
  match eff with
  | PyEff.success => Except.ok ⟨true, none, none⟩
  | PyEff.failsafe => Except.ok ⟨false, some "Failsafe triggered", none⟩
  | PyEff.raised m => Except.error m

/-- Embeds `handle_keyboard_press`. -/
def handle_keyboard_press (payload : PyDict) (eff : PyEff) : Except String Envelope :=
  let _key := pyGet payload "key"
  match eff with
  | PyEff.success => Except.ok ⟨true, none, none⟩
  | PyEff.failsafe => Except.ok ⟨false, some "Failsafe triggered", none⟩
  | PyEff.raised m => Except.error m

/-- The `commands` table of `handle_system_command`. -/
def sysCommandTable : List (String × String) :=
  [("lock", "rundll32.exe user32.dll,LockWorkStation"),
   ("sleep", "rundll32.exe powrprof.dll,SetSuspendState 0,1,0"),
   ("shutdown", "shutdown /s /t 0"),
   ("restart", "shutdown /r /t 0")]

/-- Embeds `handle_system_command`; `runOk` tells whether `subprocess.run`
completed (failures, including the 5s timeout, are caught and reported). -/
def handle_system_command (payload : PyDict) (runOk : Bool) :
    Except String (Envelope × List SysEffect) :=
  match pyGet payload "action" with
  | PyVal.pstr a =>
    match sysCommandTable.lookup a with
    | some cmdline =>
      if runOk then Except.ok (⟨true, none, some ("Executed " ++ a)⟩, [SysEffect.runShell cmdline])
      else Except.ok (⟨false, some ("Failed to " ++ a), none⟩, [])
    | none => Except.ok (⟨false, some ("Unknown system action: " ++ a), none⟩, [])
  | v => Except.ok (⟨false, some ("Unknown system action: " ++ pyShow v), none⟩, [])

/-- One step of the loop in `handle_ai_command`: look the intent up in
`AI_HANDLERS` and run the handler, or report an unknown intent. -/
def dispatchAiIntent (windows : Bool) (cmd : PyDict) (eff : PyEff) :
    Except String Envelope :=
  let intent := pyGet cmd "intent"
  if pyEqStr intent "open_app" then
    (handle_open_app cmd windows (effOk eff)).map Prod.fst
  else if pyEqStr intent "navigate_url" then
    (handle_navigate_url cmd windows (effOk eff)).map Prod.fst
  else if pyEqStr intent "mouse_click" then handle_mouse_click cmd eff
  else if pyEqStr intent "mouse_move" then handle_mouse_move cmd eff
  else if pyEqStr intent "mouse_scroll" then handle_mouse_scroll cmd eff
  else if pyEqStr intent "keyboard_type" then handle_keyboard_type cmd eff
  else if pyEqStr intent "keyboard_press" then handle_keyboard_press cmd eff
  else if pyEqStr intent "system_command" then
    (handle_system_command cmd (effOk eff)).map Prod.fst
  else Except.ok ⟨false, some ("Unknown intent: " ++ pyShow intent), none⟩

/-- The sequential execution loop of `handle_ai_command`: one result per
command; a handler exception aborts the loop and escapes to the
surrounding `try`.  `w` supplies the external outcome of each step. -/
def runAiCommands (windows : Bool) (w : Nat → PyEff) :
    List PyDict → Except String (List Envelope)
  | [] => Except.ok []
  | c :: rest =>
    match dispatchAiIntent windows c (w 0) with
    | Except.error e => Except.error e
    | Except.ok env =>
      match runAiCommands windows (fun n => w (n + 1)) rest with
      | Except.error e => Except.error e
      | Except.ok rs => Except.ok (env :: rs)

/-- The aggregation of `handle_ai_command`: on a clean run the envelope
carries `ok = all(r.get('ok', False))`, the per-command results, the
command list and its length; an escaped exception is caught by the
handler's `except` and reported as a bare error envelope. -/
def aggregateAi (windows : Bool) (cmds : List PyDict) (w : Nat → PyEff) :
    AggEnvelope :=
  match runAiCommands windows w cmds with
  | Except.error e => ⟨false, some e, none, none, none⟩
  | Except.ok rs => ⟨rs.all Envelope.ok, none, some rs, some cmds, some cmds.length⟩

/-- Embeds `handle_ai_command`: empty text is rejected up front; a
non-string text would raise `AttributeError` in `text.lower()` inside the
translation chain, caught by the handler's `except`. -/
def handle_ai_command (payload : PyDict) (windows enabled : Bool)
    (outcome : AIOutcome) (w : Nat → PyEff) : AggEnvelope :=
  let text := pyGetD payload "text" (PyVal.pstr "")
  if pyFalsy text then ⟨false, some "No text provided", none, none, none⟩
  else
    match text with
    | PyVal.pstr s => aggregateAi windows (process_command enabled s outcome) w
    | v => ⟨false, some (attrErrMsg v "lower"), none, none, none⟩

/-- Keys of `ENHANCED_HANDLERS` in `pc_agent_relay.py`. -/
def enhancedHandlerKeys : List String :=
  ["open_app", "navigate_url", "mouse_click", "mouse_move", "mouse_scroll",
   "keyboard_type", "keyboard_press", "system_command", "click", "type",
   "move", "ai_command"]

/-- Control-flow outcome of `handle_relay_message` for one inbound frame:
which branch of the source runs and what (if anything) is sent back. -/
inductive RelayStep where
  | sendError (msg : String)
  | relayStatus
  | authRespond
  | invokeHandler (cmdType : String)
  | sendUnknown (cmdType : PyVal)

/-- Embeds the routing of `handle_relay_message`.  `decoded` is the result
of `json.loads(message)` (stdlib, external): `Except.error` carries the
decoder's exception message.  Any exception in the `try` is answered with
`{'ok': False, 'error': str(e)}`. -/
def handle_relay_message (decoded : Except String PyVal) : RelayStep :=
  match decoded with
  | Except.error e => RelayStep.sendError e
  | Except.ok v =>
    match v with
    | PyVal.pdict d =>
      let ty := pyGet d "type"
      if pyEqStr ty "relay_status" then RelayStep.relayStatus
      else if pyEqStr ty "auth" then RelayStep.authRespond
      else
        match ty with
        | PyVal.pstr k =>
          if k ∈ enhancedHandlerKeys then RelayStep.invokeHandler k
          else RelayStep.sendUnknown (PyVal.pstr k)
        | other => RelayStep.sendUnknown other
    | other => RelayStep.sendError (attrErrMsg other "get")

/-- Control-flow outcome of one frame in `connect_relay`'s receive loop in
`pc_agent.py` (which never sends responses). -/
inductive AgentFrameStep where
  | logInvalid (err : String)
  | runHandler
  | systemMsg
  | logError (err : String)

/-- Embeds the per-message routing of `pc_agent.py`'s receive loop:
invalid JSON is logged only; frames with an `ok` key are treated as system
messages; everything else reaches `handle_command`. -/
def pc_agent_frame_step (decoded : Except String PyVal) : AgentFrameStep :=
  match decoded with
  | Except.error e => AgentFrameStep.logInvalid e
  | Except.ok v =>
    match v with
    | PyVal.pdict d =>
      if pyEqStr (pyGet d "type") "partner_connected"
          || pyEqStr (pyGet d "type") "partner_disconnected" then
        AgentFrameStep.runHandler
      else if isNotNull (pyGet d "ok") then AgentFrameStep.systemMsg
      else AgentFrameStep.runHandler
    | other => AgentFrameStep.logError (attrErrMsg other "get")

/-- A backend (`pyautogui`) call issued by `pc_agent.py`'s
`handle_command`. -/
inductive AgentEffect where
  | clickAt (x y : ℚ) (button : PyVal)
  | clickCur (button : PyVal)
  | moveTo (x y dur : ℚ)
  | writeText (text : PyVal) (interval : ℚ)
  | scrollBy (clicks : PyVal)
  | pressKey (key : PyVal)
  | hotkeyKeys (keys : PyVal)

/-- Embeds `handle_command` of `pc_agent.py` as the list of backend calls
it issues (the function sends no response; exceptions are caught and only
logged, yielding no call).  Out-of-bounds click/move coordinates are
logged and skipped — there is no clamping. -/
def handle_command (data : PyDict) (screenW screenH : ℚ) : List AgentEffect :=
  let ty := pyGet data "type"
  if pyEqStr ty "click" then
    let x := pyGet data "x"
    let y := pyGet data "y"
    let button := pyGetD data "button" (PyVal.pstr "left")
    if isNotNull x && isNotNull y then
      match toNumQ x, toNumQ y with
      | some qx, some qy =>
        if qx < 0 ∨ qy < 0 ∨ qx > screenW ∨ qy > screenH then []
        else [AgentEffect.clickAt qx qy button]
      | _, _ => []
    else [AgentEffect.clickCur button]
  else if pyEqStr ty "move" then
    match pyFloat (pyGetD data "duration" (PyVal.pnum 0.2)) with
    | none => []
    | some dur =>
      let x := pyGet data "x"
      let y := pyGet data "y"
      if isNotNull x && isNotNull y then
        match toNumQ x, toNumQ y with
        | some qx, some qy =>
          if qx < 0 ∨ qy < 0 ∨ qx > screenW ∨ qy > screenH then []
          else [AgentEffect.moveTo qx qy dur]
        | _, _ => []
      else []
  else if pyEqStr ty "type" then
    match pyFloat (pyGetD data "interval" (PyVal.pnum 0.05)) with
    | none => []
    | some iv =>
      let text := pyGetD data "text" (PyVal.pstr "")
      if pyTruthy text then [AgentEffect.writeText text iv] else []
  else if pyEqStr ty "scroll" then
    [AgentEffect.scrollBy (pyGetD data "clicks" (PyVal.pnum 1))]
  else if pyEqStr ty "key" then
    let key := pyGet data "key"
    if pyTruthy key then [AgentEffect.pressKey key] else []
  else if pyEqStr ty "hotkey" then
    let keys := pyGetD data "keys" (PyVal.plist [])
    if pyTruthy keys then [AgentEffect.hotkeyKeys keys] else []
  else []

/-- A connection attempt outcome in a reconnect loop: the attempt failed
(close, websocket error, or any other exception), or the session reached
the registered/`Ready` state. -/
inductive ConnEvent where
  | failure
  | ready

/-- Delay update of `connect_relay` in `pc_agent.py`: each failure path
runs `reconnect_delay = min(reconnect_delay * 1.5, 60)` after sleeping,
and a successful registration runs `reconnect_delay = 5`. -/
def agentDelayStep (d : ℚ) : ConnEvent → ℚ
  | ConnEvent.failure => min (d * 1.5) 60
  | ConnEvent.ready => 5

/-- The value of `reconnect_delay` in `pc_agent.py` after a sequence of
connection events (initial value 5). -/
def agentDelayAfter (evs : List ConnEvent) : ℚ := evs.foldl agentDelayStep 5

/-- Delay update of `main` in `pc_agent_relay.py`: `reconnect_delay` is
set to 5 before the loop and never reassigned. -/
def relayMainDelayStep (d : ℚ) : ConnEvent → ℚ := fun _ => d

/-- The value of `reconnect_delay` in `pc_agent_relay.py`'s `main` after a
sequence of connection events. -/
def relayMainDelayAfter (evs : List ConnEvent) : ℚ := evs.foldl relayMainDelayStep 5

/-- Decidable condition for the typing fallback of `parse_command`: no app
substring, no website substring, and no usable coordinate match, all on
the sanitised text. -/
def defaultBranchB (t : String) : Bool :=
  approvedAppsList.all (fun p => !strIn p.1 t) &&
  websitesList.all (fun p => !strIn p.1 t) &&
  (match coordSearch t with
   | some _ => !(strIn "click" t || strIn "move" t)
   | none => true)

/-- Every branch of the pattern matcher returns exactly one command. -/
theorem parse_sanitized_length (t : String) : (parse_command_sanitized t).length = 1 := by
  unfold parse_command_sanitized
  split
  · rfl
  · split
    · rfl
    · split
      · split
        · split <;> rfl
        · rfl
      · rfl

/-- When no app, website or coordinate pattern matches, the pattern
matcher returns exactly the default typing command. -/
theorem parse_default_eq (t : String) (h : defaultBranchB t = true) :
    parse_command_sanitized t = [typeFallbackCmd t] := by
  unfold defaultBranchB at h
  rw [Bool.and_eq_true, Bool.and_eq_true] at h
  obtain ⟨⟨h1, h2⟩, h3⟩ := h
  have hf1 : approvedAppsList.find? (fun p => strIn p.1 t) = none := by
    rw [List.find?_eq_none]
    intro x hx
    simpa using List.all_eq_true.mp h1 x hx
  have hf2 : websitesList.find? (fun p => strIn p.1 t) = none := by
    rw [List.find?_eq_none]
    intro x hx
    simpa using List.all_eq_true.mp h2 x hx
  unfold parse_command_sanitized
  rw [hf1, hf2]
  cases hcs : coordSearch t with
  | none => rfl
  | some xy =>
    rw [hcs] at h3
    rw [Bool.not_eq_true'] at h3
    simp [h3]

/-- Helper: a command whose literal intent is neither `open_app` nor
`system_command` satisfies the containment conjunction vacuously. -/
theorem notOpenNotSys {c : PyDict} {s : String} (h : pyGet c "intent" = PyVal.pstr s)
    (h1 : s ≠ "open_app") (h2 : s ≠ "system_command") :
    (pyGet c "intent" = PyVal.pstr "open_app" →
      ∃ a, pyGet c "target" = PyVal.pstr a ∧ a ∈ approvedAppValues) ∧
    pyGet c "intent" ≠ PyVal.pstr "system_command" := by
  constructor
  · intro hx
    rw [h] at hx
    injection hx with hs
    exact absurd hs h1
  · intro hx
    rw [h] at hx
    injection hx with hs
    exact absurd hs h2

/-- C1 (amended): every `open_app` command emitted by the Pattern
Translator has its target drawn from `approved_apps.values()`, and the
Pattern Translator never emits a `system_command`; the Probabilistic
Translator, by contrast, performs no whitelist validation (see the
counterexample), so containment of executable targets holds only for the
pattern path and is otherwise enforced at dispatch by `handle_open_app`. -/
theorem c1_amended_holds (text : String) :
    ∀ c ∈ parse_command text,
      (pyGet c "intent" = PyVal.pstr "open_app" →
        ∃ a, pyGet c "target" = PyVal.pstr a ∧ a ∈ approvedAppValues) ∧
      pyGet c "intent" ≠ PyVal.pstr "system_command" := by
  intro c hc
  rw [show parse_command text = parse_command_sanitized (sanitizeText text) from rfl] at hc
  revert hc
  generalize sanitizeText text = t
  intro hc
  unfold parse_command_sanitized at hc
  split at hc
  case _ p hfind =>
    rw [List.mem_singleton] at hc
    subst hc
    constructor
    · intro _
      exact ⟨p.2, rfl, List.mem_map_of_mem Prod.snd (List.mem_of_find?_eq_some hfind)⟩
    · intro hx
      have hI : pyGet (openAppCmd p.2 t) "intent" = PyVal.pstr "open_app" := rfl
      rw [hI] at hx
      injection hx with hs
      exact absurd hs (by decide)
  case _ hfind1 =>
    split at hc
    case _ p hfind2 =>
      rw [List.mem_singleton] at hc
      subst hc
      exact notOpenNotSys (s := "navigate_url") rfl (by decide) (by decide)
    case _ hfind2 =>
      split at hc
      case _ xy hcs =>
        split at hc
        case _ hkw =>
          split at hc
          case _ hclick =>
            rw [List.mem_singleton] at hc
            subst hc
            exact notOpenNotSys (s := "mouse_click") rfl (by decide) (by decide)
          case _ hclick =>
            rw [List.mem_singleton] at hc
            subst hc
            exact notOpenNotSys (s := "mouse_move") rfl (by decide) (by decide)
        case _ hkw =>
          rw [List.mem_singleton] at hc
          subst hc
          exact notOpenNotSys (s := "keyboard_type") rfl (by decide) (by decide)
      case _ hcs =>
        rw [List.mem_singleton] at hc
        subst hc
        exact notOpenNotSys (s := "keyboard_type") rfl (by decide) (by decide)

/-- Witness for C1's amended theorem, applied to the utterance
"open chrome". -/
theorem c1_witness :
    ∃ a, pyGet (openAppCmd "chrome" "open chrome") "target" = PyVal.pstr a ∧
      a ∈ approvedAppValues :=
  (c1_amended_holds "open chrome" (openAppCmd "chrome" "open chrome")
    (by rw [show parse_command "open chrome" = [openAppCmd "chrome" "open chrome"] from rfl]
        exact List.mem_singleton.mpr rfl)).1 rfl

/-- C1 counterexample: when the external service answers with an
`open_app` intent whose target is an arbitrary program path,
`_parse_ai_response` returns it untouched (plus metadata) — the
Probabilistic Translator emits an `open_app` command whose target is not
in the approved table. -/
theorem c1_counterexample :
    pyGet ((process_command true "open something" (AIOutcome.svcResponse
        "\x7b\"intent\": \"open_app\", \"target\": \"/usr/bin/evil\"\x7d"
        (some (PyVal.pdict [("intent", PyVal.pstr "open_app"),
          ("target", PyVal.pstr "/usr/bin/evil")])))).headD []) "intent" =
      PyVal.pstr "open_app" ∧
    pyGet ((process_command true "open something" (AIOutcome.svcResponse
        "\x7b\"intent\": \"open_app\", \"target\": \"/usr/bin/evil\"\x7d"
        (some (PyVal.pdict [("intent", PyVal.pstr "open_app"),
          ("target", PyVal.pstr "/usr/bin/evil")])))).headD []) "target" =
      PyVal.pstr "/usr/bin/evil" ∧
    "/usr/bin/evil" ∉ approvedAppValues :=
  ⟨rfl, rfl, by decide⟩

/-- C6 (amended): the only sanitisation `parse_command` performs is
`text.lower().strip()` — lowercasing plus trimming of leading/trailing
whitespace; the characters `;`, `&`, `|`, backtick and `$` are not
stripped, and on the fallback branch the emitted `keyboard_type` text is
the lowercased/trimmed input verbatim, shell metacharacters included. -/
theorem c6_amended_holds (text : String)
    (h : defaultBranchB (sanitizeText text) = true) :
    parse_command text = [typeFallbackCmd (sanitizeText text)] :=
  parse_default_eq (sanitizeText text) h

/-- Witness for C6's amended theorem at the input ";". -/
theorem c6_witness : parse_command ";" = [typeFallbackCmd ";"] :=
  c6_amended_holds ";" (by decide)

/-- C6 counterexample: the adversarial input "chrome;rm -rf /" matches the
approved entry `chrome`, and the emitted command's `original_text` field
still contains the full text, semicolon included — nothing was stripped
before matching. -/
theorem c6_counterexample :
    pyGet ((parse_command "chrome;rm -rf /").headD []) "original_text" =
      PyVal.pstr "chrome;rm -rf /" ∧
    strIn ";" "chrome;rm -rf /" = true :=
  ⟨rfl, rfl⟩

/-- C7: for every input string the Pattern Translator returns a non-empty
command list (in fact always exactly one command), and when no app,
website or coordinate pattern matches it emits a single `keyboard_type`
command as the default fallback. -/
theorem c7_holds (text : String) :
    0 < (parse_command text).length ∧
    (defaultBranchB (sanitizeText text) = true →
      pyGet ((parse_command text).headD []) "intent" = PyVal.pstr "keyboard_type") := by
  constructor
  · rw [show parse_command text = parse_command_sanitized (sanitizeText text) from rfl,
      parse_sanitized_length]
    norm_num
  · intro h
    rw [show parse_command text = parse_command_sanitized (sanitizeText text) from rfl,
      parse_default_eq _ h]
    rfl

/-- Witness for C7 at the input ";". -/
theorem c7_witness :
    0 < (parse_command ";").length ∧
    pyGet ((parse_command ";").headD []) "intent" = PyVal.pstr "keyboard_type" :=
  ⟨(c7_holds ";").1, (c7_holds ";").2 (by decide)⟩

/-- C3 (amended): `process_command` is a total function of the call
outcome (it never raises) and falls back to the Pattern Translator when
the translator is disabled and when the external API call raises; but a
response that is not valid JSON does not fall back — it produces a single
`keyboard_type` error command with `ai_processed = False` and confidence
0, and a response that parses is returned without any schema validation. -/
theorem c3_amended_holds (text msg raw : String) (outcome : AIOutcome) :
    process_command true text (AIOutcome.svcError msg) = parse_command text ∧
    process_command true text (AIOutcome.svcResponse raw none) = [aiErrorCmd raw] ∧
    process_command false text outcome = parse_command text :=
  ⟨rfl, rfl, rfl⟩

/-- C3 counterexample: for the text "open chrome" and the non-JSON service
response "oops", `process_command` returns the error `keyboard_type`
command, not the Pattern Translator's `open_app` result for that text. -/
theorem c3_counterexample :
    process_command true "open chrome" (AIOutcome.svcResponse "oops" none) =
      [aiErrorCmd "oops"] ∧
    parse_command "open chrome" = [openAppCmd "chrome" "open chrome"] ∧
    [aiErrorCmd "oops"] ≠ [openAppCmd "chrome" "open chrome"] := by
  refine ⟨rfl, rfl, ?_⟩
  intro h
  have h2 := congrArg (fun l => pyGet (l.headD []) "intent") h
  have h3 : PyVal.pstr "keyboard_type" = PyVal.pstr "open_app" := h2
  injection h3 with hs
  exact absurd hs (by decide)

/-- C4 (amended): on a frame whose text fails JSON decoding, the relay
dispatcher answers with an envelope whose error string is the decoder's
own exception message (not the literal "Invalid JSON"), and no command
handler is invoked; `pc_agent.py`'s loop merely logs the bad frame and
sends nothing. -/
theorem c4_amended_holds (e : String) :
    handle_relay_message (Except.error e) = RelayStep.sendError e ∧
    (∀ k, handle_relay_message (Except.error e) ≠ RelayStep.invokeHandler k) ∧
    pc_agent_frame_step (Except.error e) = AgentFrameStep.logInvalid e := by
  refine ⟨rfl, ?_, rfl⟩
  intro k h
  exact RelayStep.noConfusion h

/-- C4 counterexample: on the undecodable frame "not json" the decoder's
message is "Expecting value: line 1 column 1 (char 0)", so the envelope
sent back is not the claimed `{ok:false, error:"Invalid JSON"}`. -/
theorem c4_counterexample :
    handle_relay_message (Except.error "Expecting value: line 1 column 1 (char 0)") =
      RelayStep.sendError "Expecting value: line 1 column 1 (char 0)" ∧
    "Expecting value: line 1 column 1 (char 0)" ≠ "Invalid JSON" :=
  ⟨rfl, by decide⟩

/-- C5 (amended): in `pc_agent.py` the reconnect delay starts at the floor
5, each connection failure updates it to `min(previous * 1.5, 60)`, a
successful registration resets it to 5, and it always stays within
[5, 60]; in `pc_agent_relay.py`'s `main`, however, the delay is the
constant 5 and never grows. -/
theorem c5_amended_holds :
    agentDelayAfter [] = 5 ∧
    (∀ evs, agentDelayAfter (evs ++ [ConnEvent.failure]) =
      min (agentDelayAfter evs * 1.5) 60) ∧
    (∀ evs, agentDelayAfter (evs ++ [ConnEvent.ready]) = 5) ∧
    (∀ evs, 5 ≤ agentDelayAfter evs ∧ agentDelayAfter evs ≤ 60) ∧
    (∀ evs, relayMainDelayAfter evs = 5) := by
  refine ⟨rfl, ?_, ?_, ?_, ?_⟩
  · intro evs
    simp [agentDelayAfter, List.foldl_concat, agentDelayStep]
  · intro evs
    simp [agentDelayAfter, List.foldl_concat, agentDelayStep]
  · intro evs
    have key : ∀ (l : List ConnEvent) (d : ℚ), 5 ≤ d → d ≤ 60 →
        5 ≤ l.foldl agentDelayStep d ∧ l.foldl agentDelayStep d ≤ 60 := by
      intro l
      induction l with
      | nil => intro d hl hu; exact ⟨hl, hu⟩
      | cons ev rest ih =>
        intro d hl hu
        cases ev with
        | failure =>
          refine ih (min (d * 1.5) 60) (le_min (by linarith) (by norm_num)) (min_le_right _ _)
        | ready => exact ih 5 (by norm_num) (by norm_num)
    exact key evs 5 (by norm_num) (by norm_num)
  · intro evs
    have key : ∀ (l : List ConnEvent) (d : ℚ), l.foldl relayMainDelayStep d = d := by
      intro l
      induction l with
      | nil => intro d; rfl
      | cons ev rest ih => intro d; exact ih d
    exact key evs 5

/-- C5 counterexample: after the first connection failure,
`pc_agent_relay.py`'s `main` still sleeps 5, not `min(5 * 1.5, 60)`. -/
theorem c5_counterexample :
    relayMainDelayAfter [ConnEvent.failure] = 5 ∧
    ¬ ((5 : ℚ) = min ((5 : ℚ) * 1.5) 60) :=
  ⟨rfl, by norm_num [min_def]⟩

/-- C2 (amended): for any click or move command whose numeric coordinates
lie outside the screen bounds, `pc_agent.py`'s `handle_command` logs and
returns without invoking the backend — the command is skipped entirely, and
no clamping takes place. -/
theorem c2_amended_holds (x y screenW screenH : ℚ) (button : PyVal)
    (h : x < 0 ∨ y < 0 ∨ x > screenW ∨ y > screenH) :
    handle_command [("type", PyVal.pstr "click"), ("x", PyVal.pnum x),
      ("y", PyVal.pnum y), ("button", button)] screenW screenH = [] ∧
    handle_command [("type", PyVal.pstr "move"), ("x", PyVal.pnum x),
      ("y", PyVal.pnum y)] screenW screenH = [] := by
  constructor
  · show (if x < 0 ∨ y < 0 ∨ x > screenW ∨ y > screenH then ([] : List AgentEffect)
      else [AgentEffect.clickAt x y button]) = []
    rw [if_pos h]
  · show (if x < 0 ∨ y < 0 ∨ x > screenW ∨ y > screenH then ([] : List AgentEffect)
      else [AgentEffect.moveTo x y 0.2]) = []
    rw [if_pos h]

/-- Witness for C2's amended theorem at (2500, 100) on a 1920x1080 screen. -/
theorem c2_witness :
    handle_command [("type", PyVal.pstr "click"), ("x", PyVal.pnum 2500),
      ("y", PyVal.pnum 100), ("button", PyVal.pstr "left")] 1920 1080 = [] ∧
    handle_command [("type", PyVal.pstr "move"), ("x", PyVal.pnum 2500),
      ("y", PyVal.pnum 100)] 1920 1080 = [] :=
  c2_amended_holds 2500 100 1920 1080 (PyVal.pstr "left")
    (Or.inr (Or.inr (Or.inl (by norm_num))))

/-- C2 counterexample: a click at (2500, 100) on a 1920x1080 screen issues
no backend call at all — in particular no click at the clamped point
(1920, 100) — refuting the clamp-and-execute behaviour. -/
theorem c2_counterexample :
    handle_command [("type", PyVal.pstr "click"), ("x", PyVal.pnum 2500),
      ("y", PyVal.pnum 100)] 1920 1080 = [] := rfl

/-- C8 (amended): only the `ai_command` handler rejects an empty text
payload (with `{ok:false, error:"No text provided"}`); the
`keyboard_type` handler answers an empty text with `{ok:true}` — a silent
no-op success — and `pc_agent.py`'s `type` branch logs a warning, issues
no backend call and sends no envelope at all. -/
theorem c8_amended_holds :
    (∀ (windows enabled : Bool) (outcome : AIOutcome) (w : Nat → PyEff),
      handle_ai_command [("text", PyVal.pstr "")] windows enabled outcome w =
        ⟨false, some "No text provided", none, none, none⟩) ∧
    handle_keyboard_type [("text", PyVal.pstr "")] PyEff.success =
      Except.ok ⟨true, none, none⟩ ∧
    handle_command [("type", PyVal.pstr "type"), ("text", PyVal.pstr "")] 1920 1080 = [] := by
  refine ⟨?_, rfl, rfl⟩
  intro windows enabled outcome w
  rfl

/-- C8 counterexample: the `keyboard_type` handler, given an empty text
payload and a successful backend call, answers `{ok:true}` — not an
`ok:false` error envelope. -/
theorem c8_counterexample :
    handle_keyboard_type [("text", PyVal.pstr "")] PyEff.success =
      Except.ok ⟨true, none, none⟩ ∧
    Envelope.ok ⟨true, none, none⟩ = true :=
  ⟨rfl, rfl⟩

/-- The execution loop yields exactly one result per sub-command when it
completes without an escaped exception. -/
theorem runAi_length (windows : Bool) (cmds : List PyDict) :
    ∀ (w : Nat → PyEff) (rs : List Envelope),
      runAiCommands windows w cmds = Except.ok rs → rs.length = cmds.length := by
  induction cmds with
  | nil =>
    intro w rs h
    have h2 : Except.ok ([] : List Envelope) = Except.ok rs := h
    cases h2
    rfl
  | cons c rest ih =>
    intro w rs h
    unfold runAiCommands at h
    cases hd : dispatchAiIntent windows c (w 0) with
    | error e => rw [hd] at h; simp at h
    | ok env =>
      rw [hd] at h
      cases hr : runAiCommands windows (fun n => w (n + 1)) rest with
      | error e => rw [hr] at h; simp at h
      | ok rs2 =>
        rw [hr] at h
        have h2 : Except.ok (env :: rs2) = Except.ok rs := h
        cases h2
        simp [ih (fun n => w (n + 1)) rs2 hr]

/-- C9 (amended): whenever every sub-command's handler returns an envelope
(no exception escapes), the aggregate envelope's `ok` is the conjunction
of the per-sub-command `ok` fields, and the envelope carries the results
(one per sub-command) and the full command list with its count; when a
handler raises, the aggregate is a bare `{ok:false, error:str(e)}` with no
results (see the counterexample). -/
theorem c9_amended_holds (windows : Bool) (cmds : List PyDict) (w : Nat → PyEff)
    (rs : List Envelope) (h : runAiCommands windows w cmds = Except.ok rs) :
    aggregateAi windows cmds w =
      ⟨rs.all Envelope.ok, none, some rs, some cmds, some cmds.length⟩ ∧
    rs.length = cmds.length := by
  constructor
  · unfold aggregateAi
    rw [h]
  · exact runAi_length windows cmds w rs h

/-- Witness for C9's amended theorem on a one-command translation. -/
theorem c9_witness :
    aggregateAi false [[("intent", PyVal.pstr "mouse_click")]] allSuccess =
      ⟨true, none, some [⟨true, none, none⟩],
        some [[("intent", PyVal.pstr "mouse_click")]], some 1⟩ ∧
    ([⟨true, none, none⟩] : List Envelope).length =
      [[("intent", PyVal.pstr "mouse_click")]].length :=
  c9_amended_holds false [[("intent", PyVal.pstr "mouse_click")]] allSuccess
    [⟨true, none, none⟩] rfl

/-- C9 counterexample: a translation containing a `navigate_url`
sub-command with no target makes the handler raise
(`None.startswith`), so the aggregate envelope is a bare error with no
per-sub-command results and no echoed command list — the claimed
`ok = AND of sub-results` envelope shape does not hold for it. -/
theorem c9_counterexample :
    aggregateAi false [[("intent", PyVal.pstr "navigate_url")]] allSuccess =
      ⟨false, some "'NoneType' object has no attribute 'startswith'",
        none, none, none⟩ := rfl

/-- Helper: a payload whose target fails the membership test is answered
with the rejection envelope and spawns nothing. -/
theorem open_app_reject (payload : PyDict) (windows launch : Bool)
    (h : pyInValues (pyGet payload "target") approvedAppValues = false) :
    handle_open_app payload windows launch =
      Except.ok (⟨false, some "Application not approved", none⟩, []) := by
  unfold handle_open_app
  cases hv : pyGet payload "target" with
  | pstr a =>
    rw [hv] at h
    have hm : a ∉ approvedAppValues := by simpa [pyInValues] using h
    simp [hm]
  | pnull => rfl
  | pbool b => rfl
  | pnum q => rfl
  | plist xs => rfl
  | pdict xs => rfl

/-- C10: `handle_open_app` launches a process only when the payload's
target is one of `approved_apps.values()`; for every other target —
including anything the Probabilistic Translator may have invented — it
answers `{ok:false, error:"Application not approved"}` and spawns
nothing, so the whitelist is enforced a second time at dispatch. -/
theorem c10_holds (payload : PyDict) (windows launch : Bool) :
    (pyInValues (pyGet payload "target") approvedAppValues = false →
      handle_open_app payload windows launch =
        Except.ok (⟨false, some "Application not approved", none⟩, [])) ∧
    (∀ env effs, handle_open_app payload windows launch = Except.ok (env, effs) →
      effs ≠ [] →
      ∃ a, pyGet payload "target" = PyVal.pstr a ∧ a ∈ approvedAppValues) := by
  constructor
  · exact open_app_reject payload windows launch
  · intro env effs hres hne
    cases hx : pyInValues (pyGet payload "target") approvedAppValues with
    | false =>
      rw [open_app_reject payload windows launch hx] at hres
      have h4 : effs = [] := by
        injection hres with h2
        exact (congrArg Prod.snd h2).symm
      exact absurd h4 hne
    | true =>
      cases hv : pyGet payload "target" with
      | pstr a =>
        rw [hv] at hx
        exact ⟨a, rfl, by simpa [pyInValues] using hx⟩
      | pnull => rw [hv] at hx; simp [pyInValues] at hx
      | pbool b => rw [hv] at hx; simp [pyInValues] at hx
      | pnum q => rw [hv] at hx; simp [pyInValues] at hx
      | plist xs => rw [hv] at hx; simp [pyInValues] at hx
      | pdict xs => rw [hv] at hx; simp [pyInValues] at hx

/-- Witness for C10: the unapproved target "powershell" is rejected and
spawns nothing, while the approved target "chrome" is in the table. -/
theorem c10_witness :
    (handle_open_app [("target", PyVal.pstr "powershell")] true true =
      Except.ok (⟨false, some "Application not approved", none⟩, [])) ∧
    (∃ a, pyGet [("target", PyVal.pstr "chrome")] "target" = PyVal.pstr a ∧
      a ∈ approvedAppValues) :=
  ⟨(c10_holds [("target", PyVal.pstr "powershell")] true true).1 (by decide),
   (c10_holds [("target", PyVal.pstr "chrome")] true true).2
     ⟨true, none, some "Launched chrome"⟩ [SysEffect.spawnShell "start chrome"]
     rfl (by simp)⟩
